import Mathlib

/-!
# nuclio/opa: permission-query client

A shallow embedding of `utils.go` (`sendHTTPRequest`, `retryUntilSuccessful`) and of the
HTTP-backed client that sits on top of it, followed by the properties proved about them.

Conventions:
* a Go `error` is `Option GoError` (`none` is `nil`);
* a Go `[]byte` is `Option (List Nat)` where `nil` matters, `List Nat` otherwise;
* a Go pointer that the code tests against `nil` is an `Option`;
* Go `int` and `time.Duration` are `Int` (the code does no arithmetic on them);
* calls into the Go standard library are taken from a `Transport` value, and every
  observable effect is appended to a trace of events.
-/

namespace Opa

/-! ## Errors -/

/-- Go error values built by the package (`github.com/nuclio/errors`) or handed back by a
library call. -/
inductive GoError where
  /-- An error created from a message: `errors.New`, or an error of a library call. -/
  | mk (msg : String)
  /-- The result of `errors.Wrap cause msg`. -/
  | wrap (cause : GoError) (msg : String)
  /-- The result of `errors.Errorf "Got unexpected response status code: %d. Expected: %d"`. -/
  | unexpectedStatus (got expected : Int)
  deriving DecidableEq, Repr

/-! ## HTTP data -/

/-- A `*http.Cookie`, reduced to its name and value. -/
structure Cookie where
  Name : String
  Value : String
  deriving DecidableEq, Repr

/-- A `*http.Request` as `sendHTTPRequest` builds it. -/
structure Request where
  method : String
  url : String
  body : List Nat
  cookies : List Cookie
  header : List (String × String)
  deriving DecidableEq, Repr

/-- The method `req.AddCookie`: the cookie is added after the ones already attached. -/
def Request.AddCookie (req : Request) (cookie : Cookie) : Request :=
  { req with cookies := req.cookies ++ [cookie] }

/-- The call `req.Header.Set key value`: the value replaces whatever the key had. -/
def Request.HeaderSet (req : Request) (key value : String) : Request :=
  { req with header := (req.header.filter (fun kv => kv.1 != key)) ++ [(key, value)] }

/-- A response body (`io.ReadCloser`): what `io.ReadAll` yields on it. -/
structure ReadCloser where
  /-- The bytes `io.ReadAll` returns. -/
  data : List Nat
  /-- The error `io.ReadAll` returns, `none` when the body is read in full. -/
  readErr : Option GoError
  deriving DecidableEq, Repr

/-- A `*http.Response`: the fields `sendHTTPRequest` looks at. -/
structure Response where
  StatusCode : Int
  Body : Option ReadCloser
  deriving DecidableEq, Repr

/-- The standard-library calls of `sendHTTPRequest` whose outcome the environment decides. -/
structure Transport where
  /-- The error of `http.NewRequestWithContext` for a method and URL, `none` when the
  request object is built. -/
  newRequestWithContext : String → String → Option GoError
  /-- The pair `(resp, err)` that `httpClient.Do` returns for a request. -/
  clientDo : Request → Option Response × Option GoError

/-- Observable effects of `sendHTTPRequest` and of the client built on it. -/
inductive Event where
  /-- The call `httpClient.Do req`: one request handed to the network. -/
  | send (req : Request)
  /-- The call `io.ReadAll resp.Body`. -/
  | readAll
  /-- The call `resp.Body.Close()`. -/
  | closeBody
  /-- One line written to the logger. -/
  | log (msg : String)
  deriving DecidableEq, Repr

/-- What `sendHTTPRequest` returns, with the trace of its effects. -/
structure SendResult where
  body : Option (List Nat)
  resp : Option Response
  err : Option GoError
  trace : List Event
  deriving DecidableEq, Repr

/-! ## `sendHTTPRequest` (utils.go, lines 29-80) -/

/-- The request object after lines 39-52: created from method, URL and body, then the
cookies and the headers attached in the order they are ranged over. -/
def buildRequest (method requestURL : String) (body : List Nat)
    (headers : List (String × String)) (cookies : List Cookie) : Request :=
  let req : Request := ⟨method, requestURL, body, [], []⟩
  let req := cookies.foldl Request.AddCookie req
  headers.foldl (fun r kv => r.HeaderSet kv.1 kv.2) req

/-- Lines 71-79: the status check and the two returns that follow it. `deferred` holds the
effects of the deferred calls, which run once the return values are set. -/
def validateStatus (responseBody : Option (List Nat)) (resp : Option Response)
    (expectedStatusCode : Int) (done deferred : List Event) : SendResult :=
  match resp with
  | some r =>
    if expectedStatusCode ≠ 0 ∧ r.StatusCode ≠ expectedStatusCode then
      ⟨responseBody, resp, some (.unexpectedStatus r.StatusCode expectedStatusCode),
        done ++ deferred⟩
    else
      ⟨responseBody, resp, none, done ++ deferred⟩
  | none => ⟨responseBody, resp, none, done ++ deferred⟩

/-- The function `sendHTTPRequest`. The map `headers` is given as the list of its entries in
the order the `range` visits them. -/
def sendHTTPRequest (t : Transport) (method requestURL : String) (body : List Nat)
    (headers : List (String × String)) (cookies : List Cookie)
    (expectedStatusCode : Int) : SendResult :=
  -- create request object
  match t.newRequestWithContext method requestURL with
  | some err => ⟨none, none, some (.wrap err "Failed to create http request"), []⟩
  | none =>
    -- attach cookies, attach headers
    let req := buildRequest method requestURL body headers cookies
    -- perform the request
    match t.clientDo req with
    | (_, some err) =>
      ⟨none, none, some (.wrap err "Failed to send HTTP request"), [.send req]⟩
    | (resp, none) =>
      -- read response body
      match resp.bind Response.Body with
      | some rc =>
        -- `defer resp.Body.Close()` is registered here
        match rc.readErr with
        | some err =>
          ⟨none, none, some (.wrap err "Failed to read response body"),
            [.send req, .readAll, .closeBody]⟩
        | none =>
          validateStatus (some rc.data) resp expectedStatusCode [.send req, .readAll]
            [.closeBody]
      | none => validateStatus none resp expectedStatusCode [.send req] []

/-- The number of requests handed to the network in a trace. -/
def networkCalls (tr : List Event) : Nat :=
  (tr.filter (fun e => match e with | .send _ => true | _ => false)).length

/-- The number of `resp.Body.Close()` calls in a trace. -/
def closeCalls (tr : List Event) : Nat :=
  tr.count Event.closeBody

/-! ## `retryUntilSuccessful` (utils.go, lines 82-105) -/

/-- The case a `select` of the retry loop takes. -/
inductive SelectEvent where
  /-- The case `<-timeout`. -/
  | timeout
  /-- The case `<-ticker.C`. -/
  | tick
  deriving DecidableEq, Repr

/-- Observable steps of one run of `retryUntilSuccessful`. -/
inductive RetryEvent where
  /-- One invocation of the callback, with what it returned. -/
  | invoke (result : Bool)
  /-- A tick received from `ticker.C`. -/
  | tick
  /-- The deadline received from `timeout`. -/
  | deadline
  deriving DecidableEq, Repr

/-- How a run of `retryUntilSuccessful` ends. -/
inductive RetryOutcome where
  /-- The function returns this error value. -/
  | returned (err : Option GoError)
  /-- The function panics: `time.NewTicker` does so on a non-positive interval. -/
  | panicked (msg : String)
  /-- The `select` is still waiting when the given events are used up. -/
  | blocked
  deriving DecidableEq, Repr

/-- One run of `retryUntilSuccessful`: how it ends, what it did, the callback's state after
it, and whether the deferred `ticker.Stop()` has run. -/
structure RetryRun (σ : Type) where
  outcome : RetryOutcome
  trace : List RetryEvent
  state : σ
  tickerStopped : Bool

/-- The results of the callback's invocations in a trace, in order. -/
def invocations : List RetryEvent → List Bool
  | [] => []
  | .invoke b :: rest => b :: invocations rest
  | _ :: rest => invocations rest

/-- The number of ticks consumed in a trace. -/
def ticksConsumed (tr : List RetryEvent) : Nat :=
  tr.count RetryEvent.tick

/-- The `for { select { ... } }` loop of lines 95-104. The callback is a state transformer;
`schedule` lists the cases the successive `select`s take. -/
def retryLoop {σ : Type} (callback : σ → Bool × σ) : List SelectEvent → σ → RetryRun σ
  | [], s => ⟨.blocked, [], s, false⟩
  | .timeout :: _, s =>
    ⟨.returned (some (.mk "Retry timeout exceeded")), [.deadline], s, true⟩
  | .tick :: rest, s =>
    match callback s with
    | (true, s') => ⟨.returned none, [.tick, .invoke true], s', true⟩
    | (false, s') =>
      let r := retryLoop callback rest s'
      { r with trace := .tick :: .invoke false :: r.trace }

/-- The function `retryUntilSuccessful`. `time.After duration` and the ticker deliver their
events through `schedule`; `time.NewTicker` panics when `interval` is not positive. -/
def retryUntilSuccessful {σ : Type} (duration interval : Int) (callback : σ → Bool × σ)
    (s : σ) (schedule : List SelectEvent) : RetryRun σ :=
  -- timeout := time.After(duration): its event reaches the loop through `schedule`
  let _ := duration
  -- ticker := time.NewTicker(interval)
  if interval ≤ 0 then
    ⟨.panicked "non-positive interval for NewTicker", [], s, false⟩
  else
    -- Try immediately first
    match callback s with
    | (true, s') => ⟨.returned none, [.invoke true], s', true⟩
    | (false, s') =>
      let r := retryLoop callback schedule s'
      { r with trace := .invoke false :: r.trace }

/-! ## The HTTP-backed client (`HTTPClient`) -/

/-- The operation being authorized; a string. -/
abbrev Action := String

/-- Per-call configuration of a query. -/
structure PermissionOptions where
  MemberIds : List String
  OverrideHeaderValue : String
  deriving DecidableEq, Repr

/-- The input of a single-resource query on the wire. -/
structure PermissionQueryRequest where
  resource : String
  action : String
  memberIds : List String
  deriving DecidableEq, Repr

/-- The input of a batch filter query on the wire. -/
structure PermissionFilterRequest where
  resources : List String
  action : String
  memberIds : List String
  deriving DecidableEq, Repr

/-- The JSON encoding of the wire types (`encoding/json`), taken as given. Decoding gets the
body `sendHTTPRequest` returned, which is `none` when the response had no body. -/
structure JSONCodec where
  marshalQuery : PermissionQueryRequest → List Nat
  marshalFilter : PermissionFilterRequest → List Nat
  unmarshalQuery : Option (List Nat) → Except GoError Bool
  unmarshalFilter : Option (List Nat) → Except GoError (List String)

/-- Modelled from the spec: the state of the HTTP client variant (section 4.4), whose
declaration is not among the sources: remote address, single-query path, filter path,
request timeout, verbose flag and configured override value. The headers and cookies
attached to each request are configuration as well. -/
structure HTTPClient where
  address : String
  permissionQueryPath : String
  permissionFilterPath : String
  requestTimeout : Int
  verbose : Bool
  overrideHeaderValue : String
  headers : List (String × String)
  cookies : List Cookie

/-- The result `(bool, error)` of `QueryPermissions`, with the trace of its effects. -/
structure QueryResult where
  allowed : Bool
  err : Option GoError
  trace : List Event
  deriving DecidableEq, Repr

/-- The result `([]bool, error)` of `QueryPermissionsMultiResources`, with the trace of its
effects; a `nil` slice is the empty list. -/
structure MultiQueryResult where
  allowed : List Bool
  err : Option GoError
  trace : List Event
  deriving DecidableEq, Repr

/-- Modelled from the spec: the override bypass condition of `HTTPClient` (section 4.4,
step 1 of `QueryPermissions`), which is not among the sources: the supplied
`OverrideHeaderValue` is non-empty and equals the client's configured override value. -/
def HTTPClient.overrideMatches (c : HTTPClient) (permissionOptions : PermissionOptions) :
    Bool :=
  permissionOptions.OverrideHeaderValue != "" &&
    permissionOptions.OverrideHeaderValue == c.overrideHeaderValue

/-- The log lines written when the verbose flag is set. -/
def HTTPClient.logVerbose (c : HTTPClient) (msg : String) : List Event :=
  if c.verbose then [.log msg] else []

/-- Modelled from the spec: the method `HTTPClient.QueryPermissions` (section 4.4), which is
not among the sources. A matching override answers `true, nil` at once; otherwise the
query request is serialized and POSTed to `address + singleQueryPath` through
`sendHTTPRequest` expecting 200, the body is decoded and its `result` returned; a transport
error, a status mismatch or a decode error is returned as an error. -/
def HTTPClient.QueryPermissions (c : HTTPClient) (t : Transport) (j : JSONCodec)
    (resource : String) (action : Action) (permissionOptions : PermissionOptions) :
    QueryResult :=
  if c.overrideMatches permissionOptions then
    ⟨true, none, []⟩
  else
    let request : PermissionQueryRequest := ⟨resource, action, permissionOptions.MemberIds⟩
    let sent := sendHTTPRequest t "POST" (c.address ++ c.permissionQueryPath)
      (j.marshalQuery request) c.headers c.cookies 200
    let tr := c.logVerbose "Sending request to OPA" ++ sent.trace
    match sent.err with
    | some err => ⟨false, some (.wrap err "Failed to send HTTP request to OPA"), tr⟩
    | none =>
      match j.unmarshalQuery sent.body with
      | .error err => ⟨false, some (.wrap err "Failed to unmarshal response body"), tr⟩
      | .ok result => ⟨result, none, tr ++ c.logVerbose "Received response from OPA"⟩

/-- Modelled from the spec: the method `HTTPClient.QueryPermissionsMultiResources`
(section 4.4), which is not among the sources. A matching override answers a slice of
`true` of the input's length; an empty input answers an empty slice; both without a
request. Otherwise the filter request is POSTed to `address + filterPath` through
`sendHTTPRequest` expecting 200, the allowed resources are decoded, and position `i` of the
output tells whether the resource at position `i` of the input is among them. A failure
returns no slice and an error. -/
def HTTPClient.QueryPermissionsMultiResources (c : HTTPClient) (t : Transport)
    (j : JSONCodec) (resources : List String) (action : Action)
    (permissionOptions : PermissionOptions) : MultiQueryResult :=
  if c.overrideMatches permissionOptions then
    ⟨resources.map (fun _ => true), none, []⟩
  else if resources.isEmpty then
    ⟨[], none, []⟩
  else
    let request : PermissionFilterRequest := ⟨resources, action, permissionOptions.MemberIds⟩
    let sent := sendHTTPRequest t "POST" (c.address ++ c.permissionFilterPath)
      (j.marshalFilter request) c.headers c.cookies 200
    let tr := c.logVerbose "Sending request to OPA" ++ sent.trace
    match sent.err with
    | some err => ⟨[], some (.wrap err "Failed to send HTTP request to OPA"), tr⟩
    | none =>
      match j.unmarshalFilter sent.body with
      | .error err => ⟨[], some (.wrap err "Failed to unmarshal response body"), tr⟩
      | .ok allowedResources =>
        ⟨resources.map (fun resource => allowedResources.contains resource), none,
          tr ++ c.logVerbose "Received response from OPA"⟩

/-- The remote service answers the request built from these arguments: the request object
is built, `httpClient.Do` returns a response and no error, the response has this status
code and a body that is read in full as `data`. -/
def RemoteAnswers (t : Transport) (method requestURL : String) (body : List Nat)
    (headers : List (String × String)) (cookies : List Cookie) (status : Int)
    (data : List Nat) : Prop :=
  t.newRequestWithContext method requestURL = none ∧
    t.clientDo (buildRequest method requestURL body headers cookies) =
      (some ⟨status, some ⟨data, none⟩⟩, none)

/-! ## The test fixture of `http_test.go` and other example environments -/

/-- A wire format for the examples, standing in for JSON: every string is written as its
code points followed by a 0. -/
def encodeStrings (xs : List String) : List Nat :=
  xs.flatMap (fun x => x.toList.map Char.toNat ++ [0])

/-- Reads back the strings of `encodeStrings`; `cur` holds the characters of the string
being read, last one first. -/
def decodeStringsFrom : List Nat → List Char → List String
  | [], _ => []
  | 0 :: rest, cur => String.mk cur.reverse :: decodeStringsFrom rest []
  | (n + 1) :: rest, cur => decodeStringsFrom rest (Char.ofNat (n + 1) :: cur)

/-- Reads back the strings of `encodeStrings`. -/
def decodeStrings (bytes : List Nat) : List String :=
  decodeStringsFrom bytes []

/-- The codec of the examples: a request is its action, its member ids, an empty string
and its resources; a query response is the string `true` or `false`; a filter response is
the list of allowed resources. -/
def testCodec : JSONCodec where
  marshalQuery := fun r => encodeStrings (r.action :: r.memberIds ++ ["", r.resource])
  marshalFilter := fun r => encodeStrings (r.action :: r.memberIds ++ "" :: r.resources)
  unmarshalQuery := fun body =>
    match body.map decodeStrings with
    | some ["true"] => .ok true
    | some ["false"] => .ok false
    | _ => .error (.mk "invalid character")
  unmarshalFilter := fun body =>
    match body with
    | some bytes => .ok (decodeStrings bytes)
    | none => .error (.mk "unexpected end of JSON input")

/-- The resources of a request body in the format of `testCodec`: the strings after the
first empty one. -/
def requestResources (body : List Nat) : List String :=
  ((decodeStrings body).dropWhile (fun x => x != "")).drop 1

/-- The rule of the test server (`SetupTest`): allow if the resource starts with "allow". -/
def testAllows (resource : String) : Bool :=
  resource.toList.take 5 == "allow".toList

/-- The address the test server listens on. -/
def testAddress : String := "http://127.0.0.1:8181"

/-- The `allowPath` of `SetupTest`. -/
def testAllowPath : String := "/v1/data/authz/allow"

/-- The `filterPath` of `SetupTest`. -/
def testFilterPath : String := "/v1/data/authz/filter_allowed"

/-- The test server of `SetupTest` behind a transport that always reaches it: the allow
path answers whether the resource is allowed, the filter path answers the allowed
resources in the order of the request. -/
def testTransport : Transport where
  newRequestWithContext := fun _ _ => none
  clientDo := fun req =>
    if req.url = testAddress ++ testAllowPath then
      let allowed := (requestResources req.body).all testAllows
      (some ⟨200, some ⟨encodeStrings [if allowed then "true" else "false"], none⟩⟩, none)
    else if req.url = testAddress ++ testFilterPath then
      (some ⟨200, some ⟨encodeStrings ((requestResources req.body).filter testAllows),
        none⟩⟩, none)
    else
      (some ⟨200, some ⟨[], none⟩⟩, none)

/-- The client of `SetupTest`: five seconds of timeout, verbose logging and the override
value "test-override-value". -/
def testClient : HTTPClient where
  address := testAddress
  permissionQueryPath := testAllowPath
  permissionFilterPath := testFilterPath
  requestTimeout := 5000000000
  verbose := true
  overrideHeaderValue := "test-override-value"
  headers := [("Content-Type", "application/json")]
  cookies := []

/-- The four resources of `TestQueryPermissionsMultiResources`. -/
def testResources : List String :=
  ["allow-resource-1", "deny-resource-1", "allow-resource-2", "deny-resource-2"]

/-- A transport that answers every request with the given status code and body. -/
def fixedTransport (status : Int) (data : List Nat) : Transport where
  newRequestWithContext := fun _ _ => none
  clientDo := fun _ => (some ⟨status, some ⟨data, none⟩⟩, none)

/-- A transport for which no request object can be built. -/
def invalidURLTransport : Transport where
  newRequestWithContext := fun _ _ => some (.mk "invalid URL")
  clientDo := fun _ => (some ⟨200, some ⟨[], none⟩⟩, none)

/-- A transport whose server cannot be reached. -/
def unreachableTransport : Transport where
  newRequestWithContext := fun _ _ => none
  clientDo := fun _ => (none, some (.mk "connection refused"))

/-- A transport whose response body breaks off while it is read. -/
def brokenBodyTransport : Transport where
  newRequestWithContext := fun _ _ => none
  clientDo := fun _ => (some ⟨200, some ⟨[104, 105], some (.mk "unexpected EOF")⟩⟩, none)

/-- The state of the callback after `n` invocations that start from state `s`; the
invocation number `i` (counting from zero) of a run is `callback (stateAfter callback s i)`. -/
def stateAfter {σ : Type} (callback : σ → Bool × σ) (s : σ) : Nat → σ
  | 0 => s
  | n + 1 => stateAfter callback (callback s).2 n

/-- A probe that counts its invocations and returns true from the `n`-th on (counting from
zero). -/
def succeedsFrom (n : Nat) (count : Nat) : Bool × Nat :=
  (decide (n ≤ count), count + 1)

/-- A probe that never succeeds. -/
def neverSucceeds (count : Nat) : Bool × Nat :=
  (false, count + 1)

/-! ## Properties of `sendHTTPRequest` -/

theorem validateStatus_body (responseBody : Option (List Nat)) (resp : Option Response)
    (expectedStatusCode : Int) (done deferred : List Event) :
    (validateStatus responseBody resp expectedStatusCode done deferred).body = responseBody ∧
    (validateStatus responseBody resp expectedStatusCode done deferred).resp = resp ∧
    (validateStatus responseBody resp expectedStatusCode done deferred).trace =
      done ++ deferred := by
  unfold validateStatus
  cases resp with
  | none => simp
  | some r => by_cases h : expectedStatusCode ≠ 0 ∧ r.StatusCode ≠ expectedStatusCode <;> simp [h]

theorem validateStatus_err (responseBody : Option (List Nat)) (r : Response)
    (expectedStatusCode : Int) (done deferred : List Event) :
    (validateStatus responseBody (some r) expectedStatusCode done deferred).err ≠ none ↔
      (expectedStatusCode ≠ 0 ∧ r.StatusCode ≠ expectedStatusCode) := by
  unfold validateStatus
  by_cases h : expectedStatusCode ≠ 0 ∧ r.StatusCode ≠ expectedStatusCode <;> simp [h]

/-- C5: when the request is built, `httpClient.Do` returns a response without error and the
body (if the response has one) is read in full, `sendHTTPRequest` returns a non-nil error
exactly when `expectedStatusCode` is not 0 and differs from the response's status code; in
both cases it returns the bytes read and the response, so `expectedStatusCode = 0` gives a
nil error for every status code. -/
theorem sendHTTPRequest_status_check (t : Transport) (method requestURL : String)
    (body : List Nat) (headers : List (String × String)) (cookies : List Cookie)
    (expectedStatusCode : Int) (resp : Response)
    (hbuild : t.newRequestWithContext method requestURL = none)
    (hdo : t.clientDo (buildRequest method requestURL body headers cookies) =
      (some resp, none))
    (hread : ∀ rc, resp.Body = some rc → rc.readErr = none) :
    ((sendHTTPRequest t method requestURL body headers cookies expectedStatusCode).err ≠ none ↔
      (expectedStatusCode ≠ 0 ∧ resp.StatusCode ≠ expectedStatusCode)) ∧
    (sendHTTPRequest t method requestURL body headers cookies expectedStatusCode).body =
      resp.Body.map ReadCloser.data ∧
    (sendHTTPRequest t method requestURL body headers cookies expectedStatusCode).resp =
      some resp ∧
    (expectedStatusCode = 0 →
      (sendHTTPRequest t method requestURL body headers cookies expectedStatusCode).err =
        none) := by
  have key : sendHTTPRequest t method requestURL body headers cookies expectedStatusCode =
      validateStatus (resp.Body.map ReadCloser.data) (some resp) expectedStatusCode
        ([.send (buildRequest method requestURL body headers cookies)] ++
          (if resp.Body.isSome then [.readAll] else []))
        (if resp.Body.isSome then [.closeBody] else []) := by
    unfold sendHTTPRequest
    simp only [hbuild, hdo, Option.bind]
    cases hb : resp.Body with
    | none => simp
    | some rc => simp [hread rc hb]
  rw [key]
  refine ⟨validateStatus_err _ _ _ _ _, (validateStatus_body _ _ _ _ _).1,
    (validateStatus_body _ _ _ _ _).2.1, ?_⟩
  intro h0
  by_contra hne
  exact ((validateStatus_err _ _ _ _ _).1 hne).1 h0

/-! ### The five paths through `sendHTTPRequest` -/

theorem sendHTTPRequest_build_error (t : Transport) (method requestURL : String)
    (body : List Nat) (headers : List (String × String)) (cookies : List Cookie)
    (expectedStatusCode : Int) (e : GoError)
    (hb : t.newRequestWithContext method requestURL = some e) :
    sendHTTPRequest t method requestURL body headers cookies expectedStatusCode =
      ⟨none, none, some (.wrap e "Failed to create http request"), []⟩ := by
  simp [sendHTTPRequest, hb]

theorem sendHTTPRequest_do_error (t : Transport) (method requestURL : String)
    (body : List Nat) (headers : List (String × String)) (cookies : List Cookie)
    (expectedStatusCode : Int) (resp : Option Response) (e : GoError)
    (hb : t.newRequestWithContext method requestURL = none)
    (hd : t.clientDo (buildRequest method requestURL body headers cookies) = (resp, some e)) :
    sendHTTPRequest t method requestURL body headers cookies expectedStatusCode =
      ⟨none, none, some (.wrap e "Failed to send HTTP request"),
        [.send (buildRequest method requestURL body headers cookies)]⟩ := by
  simp [sendHTTPRequest, hb, hd]

theorem sendHTTPRequest_read_error (t : Transport) (method requestURL : String)
    (body : List Nat) (headers : List (String × String)) (cookies : List Cookie)
    (expectedStatusCode : Int) (resp : Response) (rc : ReadCloser) (e : GoError)
    (hb : t.newRequestWithContext method requestURL = none)
    (hd : t.clientDo (buildRequest method requestURL body headers cookies) =
      (some resp, none))
    (hbody : resp.Body = some rc) (hre : rc.readErr = some e) :
    sendHTTPRequest t method requestURL body headers cookies expectedStatusCode =
      ⟨none, none, some (.wrap e "Failed to read response body"),
        [.send (buildRequest method requestURL body headers cookies), .readAll,
          .closeBody]⟩ := by
  simp [sendHTTPRequest, hb, hd, hbody, hre]

theorem sendHTTPRequest_read_ok (t : Transport) (method requestURL : String)
    (body : List Nat) (headers : List (String × String)) (cookies : List Cookie)
    (expectedStatusCode : Int) (resp : Response) (rc : ReadCloser)
    (hb : t.newRequestWithContext method requestURL = none)
    (hd : t.clientDo (buildRequest method requestURL body headers cookies) =
      (some resp, none))
    (hbody : resp.Body = some rc) (hre : rc.readErr = none) :
    sendHTTPRequest t method requestURL body headers cookies expectedStatusCode =
      validateStatus (some rc.data) (some resp) expectedStatusCode
        [.send (buildRequest method requestURL body headers cookies), .readAll]
        [.closeBody] := by
  simp [sendHTTPRequest, hb, hd, hbody, hre]

theorem sendHTTPRequest_no_body (t : Transport) (method requestURL : String)
    (body : List Nat) (headers : List (String × String)) (cookies : List Cookie)
    (expectedStatusCode : Int) (resp : Option Response)
    (hb : t.newRequestWithContext method requestURL = none)
    (hd : t.clientDo (buildRequest method requestURL body headers cookies) = (resp, none))
    (hbody : resp.bind Response.Body = none) :
    sendHTTPRequest t method requestURL body headers cookies expectedStatusCode =
      validateStatus none resp expectedStatusCode
        [.send (buildRequest method requestURL body headers cookies)] [] := by
  simp [sendHTTPRequest, hb, hd, hbody]

/-- C8: if building the request fails, or `httpClient.Do` returns an error, or reading the
response body fails, `sendHTTPRequest` returns `(nil, nil, err)` with `err` non-nil; when
it is the building of the request that fails, no request has been sent. -/
theorem sendHTTPRequest_failure_returns_nothing (t : Transport) (method requestURL : String)
    (body : List Nat) (headers : List (String × String)) (cookies : List Cookie)
    (expectedStatusCode : Int)
    (hfail : t.newRequestWithContext method requestURL ≠ none ∨
      (t.clientDo (buildRequest method requestURL body headers cookies)).2 ≠ none ∨
      ∃ resp rc, (t.clientDo (buildRequest method requestURL body headers cookies)).1 =
        some resp ∧ resp.Body = some rc ∧ rc.readErr ≠ none) :
    (sendHTTPRequest t method requestURL body headers cookies expectedStatusCode).body = none ∧
    (sendHTTPRequest t method requestURL body headers cookies expectedStatusCode).resp = none ∧
    (sendHTTPRequest t method requestURL body headers cookies expectedStatusCode).err ≠ none ∧
    (t.newRequestWithContext method requestURL ≠ none →
      networkCalls
        (sendHTTPRequest t method requestURL body headers cookies expectedStatusCode).trace =
        0) := by
  cases hb : t.newRequestWithContext method requestURL with
  | some e =>
    rw [sendHTTPRequest_build_error t method requestURL body headers cookies
      expectedStatusCode e hb]
    simp [networkCalls]
  | none =>
    rcases hd : t.clientDo (buildRequest method requestURL body headers cookies) with
      ⟨resp, derr⟩
    cases derr with
    | some e =>
      rw [sendHTTPRequest_do_error t method requestURL body headers cookies
        expectedStatusCode resp e hb hd]
      simp
    | none =>
      rw [hb, hd] at hfail
      rcases hfail with h | h | ⟨r, rc, hr, hbody, hrc⟩
      · exact absurd rfl h
      · exact absurd rfl h
      · simp only at hr
        subst hr
        cases hre : rc.readErr with
        | none => exact absurd hre hrc
        | some e =>
          rw [sendHTTPRequest_read_error t method requestURL body headers cookies
            expectedStatusCode r rc e hb hd hbody hre]
          simp

/-- C9: `sendHTTPRequest` never closes the response body more than once, and whenever the
request is built and `httpClient.Do` returns, without error, a response that has a body, the
body is closed exactly once, after it has been read: whatever the outcome of the read and
whatever the status code, that is on the body-read error, the status-mismatch error and the
successful return alike. -/
theorem sendHTTPRequest_closes_body_once (t : Transport) (method requestURL : String)
    (body : List Nat) (headers : List (String × String)) (cookies : List Cookie)
    (expectedStatusCode : Int) :
    closeCalls
      (sendHTTPRequest t method requestURL body headers cookies expectedStatusCode).trace ≤ 1 ∧
    ∀ resp rc, t.newRequestWithContext method requestURL = none →
      t.clientDo (buildRequest method requestURL body headers cookies) = (some resp, none) →
      resp.Body = some rc →
      closeCalls
        (sendHTTPRequest t method requestURL body headers cookies expectedStatusCode).trace =
        1 ∧
      (sendHTTPRequest t method requestURL body headers cookies expectedStatusCode).trace =
        [.send (buildRequest method requestURL body headers cookies), .readAll,
          .closeBody] := by
  have hpath : ∀ resp rc, t.newRequestWithContext method requestURL = none →
      t.clientDo (buildRequest method requestURL body headers cookies) = (some resp, none) →
      resp.Body = some rc →
      (sendHTTPRequest t method requestURL body headers cookies expectedStatusCode).trace =
        [.send (buildRequest method requestURL body headers cookies), .readAll,
          .closeBody] := by
    intro resp rc hb hd hbody
    cases hre : rc.readErr with
    | some e =>
      rw [sendHTTPRequest_read_error t method requestURL body headers cookies
        expectedStatusCode resp rc e hb hd hbody hre]
    | none =>
      rw [sendHTTPRequest_read_ok t method requestURL body headers cookies
        expectedStatusCode resp rc hb hd hbody hre, (validateStatus_body _ _ _ _ _).2.2]
      rfl
  constructor
  · cases hb : t.newRequestWithContext method requestURL with
    | some e =>
      rw [sendHTTPRequest_build_error t method requestURL body headers cookies
        expectedStatusCode e hb]
      simp [closeCalls]
    | none =>
      rcases hd : t.clientDo (buildRequest method requestURL body headers cookies) with
        ⟨resp, derr⟩
      cases derr with
      | some e =>
        rw [sendHTTPRequest_do_error t method requestURL body headers cookies
          expectedStatusCode resp e hb hd]
        simp [closeCalls]
      | none =>
        cases hbody : resp.bind Response.Body with
        | none =>
          rw [sendHTTPRequest_no_body t method requestURL body headers cookies
            expectedStatusCode resp hb hd hbody, (validateStatus_body _ _ _ _ _).2.2]
          simp [closeCalls]
        | some rc =>
          cases resp with
          | none => simp at hbody
          | some r =>
            rw [hpath r rc hb hd (by simpa using hbody)]
            simp [closeCalls]
  · intro resp rc hb hd hbody
    refine ⟨?_, hpath resp rc hb hd hbody⟩
    rw [hpath resp rc hb hd hbody]
    simp [closeCalls]

/-! ## Properties of `retryUntilSuccessful` -/

theorem retryLoop_tick_true {σ : Type} (callback : σ → Bool × σ) (rest : List SelectEvent)
    (s s' : σ) (h : callback s = (true, s')) :
    retryLoop callback (.tick :: rest) s = ⟨.returned none, [.tick, .invoke true], s', true⟩ := by
  simp [retryLoop, h]

theorem retryLoop_tick_false {σ : Type} (callback : σ → Bool × σ) (rest : List SelectEvent)
    (s s' : σ) (h : callback s = (false, s')) :
    retryLoop callback (.tick :: rest) s =
      { retryLoop callback rest s' with
        trace := .tick :: .invoke false :: (retryLoop callback rest s').trace } := by
  simp [retryLoop, h]

theorem retryUntilSuccessful_first_true {σ : Type} (duration interval : Int)
    (callback : σ → Bool × σ) (s s' : σ) (schedule : List SelectEvent)
    (hpos : 0 < interval) (h : callback s = (true, s')) :
    retryUntilSuccessful duration interval callback s schedule =
      ⟨.returned none, [.invoke true], s', true⟩ := by
  simp [retryUntilSuccessful, h, not_le.mpr hpos]

theorem retryUntilSuccessful_first_false {σ : Type} (duration interval : Int)
    (callback : σ → Bool × σ) (s s' : σ) (schedule : List SelectEvent)
    (hpos : 0 < interval) (h : callback s = (false, s')) :
    retryUntilSuccessful duration interval callback s schedule =
      { retryLoop callback schedule s' with
        trace := .invoke false :: (retryLoop callback schedule s').trace } := by
  simp [retryUntilSuccessful, h, not_le.mpr hpos]

theorem retryUntilSuccessful_nonpositive {σ : Type} (duration interval : Int)
    (callback : σ → Bool × σ) (s : σ) (schedule : List SelectEvent) (h : interval ≤ 0) :
    retryUntilSuccessful duration interval callback s schedule =
      ⟨.panicked "non-positive interval for NewTicker", [], s, false⟩ := by
  simp [retryUntilSuccessful, h]

/-- The loop invokes the callback once a tick; all its invocations return false, except
that a loop that returns nil ends on one more invocation, which returns true. -/
theorem retryLoop_shape {σ : Type} (callback : σ → Bool × σ) (schedule : List SelectEvent) :
    ∀ s : σ, ∃ k,
      invocations (retryLoop callback schedule s).trace =
        List.replicate k false ++
          (if (retryLoop callback schedule s).outcome = .returned none then [true] else []) ∧
      ticksConsumed (retryLoop callback schedule s).trace =
        (invocations (retryLoop callback schedule s).trace).length := by
  induction schedule with
  | nil => intro s; exact ⟨0, by simp [retryLoop, invocations, ticksConsumed]⟩
  | cons ev rest ih =>
    intro s
    cases ev with
    | timeout => exact ⟨0, by simp [retryLoop, invocations, ticksConsumed]⟩
    | tick =>
      rcases hcb : callback s with ⟨b, s'⟩
      cases b with
      | true =>
        rw [retryLoop_tick_true callback rest s s' hcb]
        exact ⟨0, by simp [invocations, ticksConsumed]⟩
      | false =>
        rw [retryLoop_tick_false callback rest s s' hcb]
        obtain ⟨k, hk, ht⟩ := ih s'
        refine ⟨k + 1, ?_, ?_⟩
        · simp only [invocations, hk, List.replicate_succ, List.cons_append]
        · simp only [ticksConsumed, invocations, List.length_cons] at ht ⊢
          rw [List.count_cons_self, List.count_cons_of_ne (by simp), ht]

/-- A run that does not panic invokes the callback once at the start and once a tick; all
invocations but the last return false, and the last returns true exactly when the run
returns nil. -/
theorem retryUntilSuccessful_shape {σ : Type} (duration interval : Int)
    (callback : σ → Bool × σ) (s : σ) (schedule : List SelectEvent) (hpos : 0 < interval) :
    ∃ k,
      invocations (retryUntilSuccessful duration interval callback s schedule).trace =
        List.replicate k false ++
          [decide ((retryUntilSuccessful duration interval callback s schedule).outcome =
            .returned none)] ∧
      (invocations (retryUntilSuccessful duration interval callback s schedule).trace).length =
        1 + ticksConsumed (retryUntilSuccessful duration interval callback s schedule).trace := by
  rcases hcb : callback s with ⟨b, s'⟩
  cases b with
  | true =>
    rw [retryUntilSuccessful_first_true duration interval callback s s' schedule hpos hcb]
    exact ⟨0, by simp [invocations, ticksConsumed]⟩
  | false =>
    rw [retryUntilSuccessful_first_false duration interval callback s s' schedule hpos hcb]
    obtain ⟨k, hk, ht⟩ := retryLoop_shape callback schedule s'
    by_cases hout : (retryLoop callback schedule s').outcome = .returned none
    · refine ⟨k + 1, ?_, ?_⟩
      · simp only [invocations, hk, hout, if_true, decide_True, List.replicate_succ,
          List.cons_append]
      · simp only [ticksConsumed, invocations, List.length_cons] at ht ⊢
        rw [List.count_cons_of_ne (by simp), ht]; omega
    · refine ⟨k, ?_, ?_⟩
      · simp only [invocations, hk, hout, if_false, decide_False, List.append_nil]
        rw [← List.replicate_succ, List.replicate_succ']
      · simp only [ticksConsumed, invocations, List.length_cons] at ht ⊢
        rw [List.count_cons_of_ne (by simp), ht]; omega

/-- In a list of `k` times false followed by one more value, only the last position can
hold true. -/
theorem true_only_last (k : Nat) (b : Bool) (i : Nat)
    (h : (List.replicate k false ++ [b])[i]? = some true) :
    i + 1 = (List.replicate k false ++ [b]).length := by
  rcases Nat.lt_trichotomy i k with hlt | heq | hgt
  · rw [List.getElem?_append_left (by simpa using hlt)] at h
    simp [List.getElem?_replicate, hlt] at h
  · simp [heq]
  · rw [List.getElem?_eq_none (by simp; omega)] at h
    exact absurd h (by simp)

/-- C6 (amended): for every total duration, every positive poll interval and every probe,
the first thing `retryUntilSuccessful` does is invoke the probe, before any tick or
deadline is received; if that invocation returns true the run returns nil having invoked
the probe exactly once (and having consumed no tick). -/
theorem retryUntilSuccessful_tries_immediately {σ : Type} (duration interval : Int)
    (callback : σ → Bool × σ) (s : σ) (schedule : List SelectEvent)
    (hpos : 0 < interval) :
    (retryUntilSuccessful duration interval callback s schedule).trace.head? =
      some (.invoke (callback s).1) ∧
    ((callback s).1 = true →
      (retryUntilSuccessful duration interval callback s schedule).outcome = .returned none ∧
      (retryUntilSuccessful duration interval callback s schedule).trace = [.invoke true] ∧
      (invocations (retryUntilSuccessful duration interval callback s schedule).trace).length =
        1 ∧
      (retryUntilSuccessful duration interval callback s schedule).state = (callback s).2) := by
  rcases hcb : callback s with ⟨b, s'⟩
  cases b with
  | true =>
    rw [retryUntilSuccessful_first_true duration interval callback s s' schedule hpos hcb]
    simp [invocations]
  | false =>
    rw [retryUntilSuccessful_first_false duration interval callback s s' schedule hpos hcb]
    simp

/-- The loop never returns nil on a probe that always returns false, and it returns the
timeout error when the deadline is taken after any number of ticks. -/
theorem retryLoop_always_false {σ : Type} (callback : σ → Bool × σ)
    (hfalse : ∀ s, (callback s).1 = false) (schedule : List SelectEvent) :
    ∀ s : σ, (retryLoop callback schedule s).outcome ≠ .returned none ∧
      ∀ n rest, schedule = List.replicate n SelectEvent.tick ++ .timeout :: rest →
        (retryLoop callback schedule s).outcome =
          .returned (some (.mk "Retry timeout exceeded")) ∧
        ticksConsumed (retryLoop callback schedule s).trace = n := by
  induction schedule with
  | nil =>
    intro s
    refine ⟨by simp [retryLoop], ?_⟩
    intro n rest h
    simp at h
  | cons ev tl ih =>
    intro s
    cases ev with
    | timeout =>
      refine ⟨by simp [retryLoop], ?_⟩
      intro n rest h
      cases n with
      | zero => simp [retryLoop, ticksConsumed]
      | succ m => simp [List.replicate_succ] at h
    | tick =>
      have hcb : callback s = (false, (callback s).2) := by
        rw [← hfalse s]
      rw [retryLoop_tick_false callback tl s _ hcb]
      refine ⟨(ih _).1, ?_⟩
      intro n rest h
      cases n with
      | zero => simp at h
      | succ m =>
        simp only [List.replicate_succ, List.cons_append, List.cons.injEq, true_and] at h
        obtain ⟨ho, ht⟩ := (ih (callback s).2).2 m rest h
        refine ⟨ho, ?_⟩
        simp only [ticksConsumed] at ht ⊢
        rw [List.count_cons_self, List.count_cons_of_ne (by simp), ht]

/-- C7: with a positive poll interval and a probe that returns false on every invocation,
`retryUntilSuccessful` returns the error "Retry timeout exceeded" when the deadline is taken
after any finite number `n` of ticks (having invoked the probe `n + 1` times), and on no
sequence of events at all does it return nil. -/
theorem retryUntilSuccessful_timeout {σ : Type} (duration interval : Int)
    (callback : σ → Bool × σ) (s : σ) (hpos : 0 < interval)
    (hfalse : ∀ s, (callback s).1 = false) :
    (∀ n rest,
      (retryUntilSuccessful duration interval callback s
        (List.replicate n SelectEvent.tick ++ .timeout :: rest)).outcome =
        .returned (some (.mk "Retry timeout exceeded")) ∧
      (invocations (retryUntilSuccessful duration interval callback s
        (List.replicate n SelectEvent.tick ++ .timeout :: rest)).trace).length = n + 1) ∧
    ∀ schedule,
      (retryUntilSuccessful duration interval callback s schedule).outcome ≠
        .returned none := by
  have hcb : callback s = (false, (callback s).2) := by
    rw [← hfalse s]
  constructor
  · intro n rest
    obtain ⟨k, -, hlen⟩ := retryUntilSuccessful_shape duration interval callback s
      (List.replicate n SelectEvent.tick ++ .timeout :: rest) hpos
    rw [hlen]
    rw [retryUntilSuccessful_first_false duration interval callback s _ _ hpos hcb]
    obtain ⟨ho, ht⟩ := (retryLoop_always_false callback hfalse _ (callback s).2).2 n rest rfl
    refine ⟨ho, ?_⟩
    simp only [ticksConsumed] at ht ⊢
    rw [List.count_cons_of_ne (by simp), ht]; omega
  · intro schedule
    rw [retryUntilSuccessful_first_false duration interval callback s _ schedule hpos hcb]
    exact (retryLoop_always_false callback hfalse schedule (callback s).2).1

/-- What the loop records is what the callback did: the recorded result number `i` is the
result of the callback on the state reached after `i` invocations, the final state is the
one reached after all of them, the ticks consumed are the first events of the schedule, and
a loop that returns an error has taken the deadline right after them. -/
theorem retryLoop_tied {σ : Type} (callback : σ → Bool × σ) (schedule : List SelectEvent) :
    ∀ s : σ,
      (∀ (i : Nat) (b : Bool), (invocations (retryLoop callback schedule s).trace)[i]? = some b →
        b = (callback (stateAfter callback s i)).1) ∧
      (retryLoop callback schedule s).state =
        stateAfter callback s (invocations (retryLoop callback schedule s).trace).length ∧
      schedule.take (ticksConsumed (retryLoop callback schedule s).trace) =
        List.replicate (ticksConsumed (retryLoop callback schedule s).trace)
          SelectEvent.tick ∧
      ∀ err, (retryLoop callback schedule s).outcome = .returned (some err) →
        schedule[ticksConsumed (retryLoop callback schedule s).trace]? =
          some SelectEvent.timeout ∧
        err = .mk "Retry timeout exceeded" := by
  induction schedule with
  | nil =>
    intro s
    simp [retryLoop, invocations, ticksConsumed, stateAfter]
  | cons ev rest ih =>
    intro s
    cases ev with
    | timeout =>
      refine ⟨?_, ?_, ?_, ?_⟩
      · simp [retryLoop, invocations]
      · simp [retryLoop, invocations, stateAfter]
      · simp [retryLoop, ticksConsumed]
      · intro err h
        simp only [retryLoop, RetryOutcome.returned.injEq, Option.some.injEq] at h
        exact ⟨by simp [retryLoop, ticksConsumed], h.symm⟩
    | tick =>
      rcases hcb : callback s with ⟨b, s'⟩
      cases b with
      | true =>
        rw [retryLoop_tick_true callback rest s s' hcb]
        refine ⟨?_, ?_, ?_, ?_⟩
        · intro i b hb
          cases i with
          | zero =>
            simp only [invocations, List.getElem?_cons_zero, Option.some.injEq] at hb
            simp [stateAfter, hcb, ← hb]
          | succ m => simp [invocations] at hb
        · simp [invocations, stateAfter, hcb]
        · simp [ticksConsumed]
        · intro err h
          simp at h
      | false =>
        rw [retryLoop_tick_false callback rest s s' hcb]
        obtain ⟨ha, hb, hc, hd⟩ := ih s'
        have hs' : (callback s).2 = s' := by rw [hcb]
        have hticks : ticksConsumed
            (RetryEvent.tick :: RetryEvent.invoke false :: (retryLoop callback rest s').trace) =
            ticksConsumed (retryLoop callback rest s').trace + 1 := by
          simp only [ticksConsumed]
          rw [List.count_cons_self, List.count_cons_of_ne (by simp)]
        refine ⟨?_, ?_, ?_, ?_⟩
        · intro i b hi
          cases i with
          | zero =>
            simp only [invocations, List.getElem?_cons_zero, Option.some.injEq] at hi
            simp [stateAfter, hcb, ← hi]
          | succ m =>
            simp only [invocations, List.getElem?_cons_succ] at hi
            simp only [stateAfter, hs']
            exact ha m b hi
        · simp only [invocations, List.length_cons, stateAfter, hs']
          exact hb
        · simp only [hticks, List.take_succ_cons, List.replicate_succ, hc]
        · intro err h
          simp only [hticks, List.getElem?_cons_succ]
          exact hd err h

/-- C10: for every run of `retryUntilSuccessful` that returns, whatever the sequence of
tick and deadline events. The recorded invocations are the probe's own: invocation number
`i` returned what the probe returns in the state reached after `i` invocations, and the
final state is the one reached after all of them. The run returns nil if and only if the
last invocation returned true; every earlier invocation returned false; no invocation
follows one that returned true; the number of invocations is one plus the number of ticks
consumed. The ticks consumed are the first events of the schedule, a run that returns an
error has taken the deadline right after them and returns "Retry timeout exceeded", and
the poll interval of a run that returns is positive. -/
theorem retryUntilSuccessful_run_invariant {σ : Type} (duration interval : Int)
    (callback : σ → Bool × σ) (s : σ) (schedule : List SelectEvent) (e : Option GoError)
    (hret : (retryUntilSuccessful duration interval callback s schedule).outcome =
      .returned e) :
    (e = none ↔
      (invocations (retryUntilSuccessful duration interval callback s schedule).trace).getLast? =
        some true) ∧
    (∀ b ∈ (invocations
        (retryUntilSuccessful duration interval callback s schedule).trace).dropLast,
      b = false) ∧
    (∀ i,
      (invocations (retryUntilSuccessful duration interval callback s schedule).trace)[i]? =
        some true →
      i + 1 =
        (invocations (retryUntilSuccessful duration interval callback s schedule).trace).length) ∧
    (invocations (retryUntilSuccessful duration interval callback s schedule).trace).length =
      1 + ticksConsumed (retryUntilSuccessful duration interval callback s schedule).trace ∧
    (∀ (i : Nat) (b : Bool),
      (invocations (retryUntilSuccessful duration interval callback s schedule).trace)[i]? =
        some b →
      b = (callback (stateAfter callback s i)).1) ∧
    (retryUntilSuccessful duration interval callback s schedule).state =
      stateAfter callback s
        (invocations (retryUntilSuccessful duration interval callback s schedule).trace).length ∧
    schedule.take
        (ticksConsumed (retryUntilSuccessful duration interval callback s schedule).trace) =
      List.replicate
        (ticksConsumed (retryUntilSuccessful duration interval callback s schedule).trace)
        SelectEvent.tick ∧
    (∀ err, e = some err →
      schedule[ticksConsumed
          (retryUntilSuccessful duration interval callback s schedule).trace]? =
        some SelectEvent.timeout ∧
      err = .mk "Retry timeout exceeded") ∧
    0 < interval := by
  by_cases hpos : 0 < interval
  · obtain ⟨k, hk, hlen⟩ :=
      retryUntilSuccessful_shape duration interval callback s schedule hpos
    refine ⟨?_, ?_, ?_, hlen, ?_⟩
    · rw [hk, hret]
      cases e <;> simp
    · rw [hk]
      intro b hb
      rw [List.dropLast_concat] at hb
      exact List.eq_of_mem_replicate hb
    · rw [hk]
      intro i hi
      exact true_only_last k _ i hi
    · clear hk hlen
      rcases hcb : callback s with ⟨b0, s'⟩
      have hs' : (callback s).2 = s' := by rw [hcb]
      cases b0 with
      | true =>
        rw [retryUntilSuccessful_first_true duration interval callback s s' schedule hpos
          hcb] at hret ⊢
        refine ⟨?_, ?_, ?_, ?_, hpos⟩
        · intro i b hb
          cases i with
          | zero =>
            simp only [invocations, List.getElem?_cons_zero, Option.some.injEq] at hb
            simp [stateAfter, hcb, ← hb]
          | succ m => simp [invocations] at hb
        · simp [invocations, stateAfter, hcb]
        · simp [ticksConsumed]
        · intro err he
          subst he
          simp at hret
      | false =>
        rw [retryUntilSuccessful_first_false duration interval callback s s' schedule hpos
          hcb] at hret ⊢
        obtain ⟨ha, hb, hc, hd⟩ := retryLoop_tied callback schedule s'
        have hticks : ticksConsumed
            (RetryEvent.invoke false :: (retryLoop callback schedule s').trace) =
            ticksConsumed (retryLoop callback schedule s').trace := by
          simp only [ticksConsumed]
          rw [List.count_cons_of_ne (by simp)]
        refine ⟨?_, ?_, ?_, ?_, hpos⟩
        · intro i b hi
          cases i with
          | zero =>
            simp only [invocations, List.getElem?_cons_zero, Option.some.injEq] at hi
            simp [stateAfter, hcb, ← hi]
          | succ m =>
            simp only [invocations, List.getElem?_cons_succ] at hi
            simp only [stateAfter, hs']
            exact ha m b hi
        · simp only [invocations, List.length_cons, stateAfter, hs']
          exact hb
        · simp only [hticks]
          exact hc
        · intro err he
          subst he
          simp only [hticks]
          exact hd err hret
  · rw [retryUntilSuccessful_nonpositive duration interval callback s schedule
      (not_lt.mp hpos)] at hret
    simp at hret

/-! ## Properties of the HTTP-backed client -/

theorem sendHTTPRequest_of_remoteAnswers (t : Transport) (method requestURL : String)
    (body : List Nat) (headers : List (String × String)) (cookies : List Cookie)
    (status : Int) (data : List Nat)
    (h : RemoteAnswers t method requestURL body headers cookies status data) :
    sendHTTPRequest t method requestURL body headers cookies status =
      ⟨some data, some ⟨status, some ⟨data, none⟩⟩, none,
        [.send (buildRequest method requestURL body headers cookies), .readAll,
          .closeBody]⟩ := by
  rw [sendHTTPRequest_read_ok t method requestURL body headers cookies status
    ⟨status, some ⟨data, none⟩⟩ ⟨data, none⟩ h.1 h.2 rfl rfl]
  simp [validateStatus]

theorem overrideMatches_iff (c : HTTPClient) (permissionOptions : PermissionOptions) :
    c.overrideMatches permissionOptions = true ↔
      (permissionOptions.OverrideHeaderValue ≠ "" ∧
        permissionOptions.OverrideHeaderValue = c.overrideHeaderValue) := by
  simp [HTTPClient.overrideMatches]

/-- C1: when the override does not match and the filter endpoint answers 200 with a body
that decodes to the allowed list `A`, `QueryPermissionsMultiResources` returns a nil error
and a slice as long as the input in which position `i` is true exactly when the resource at
position `i` of the input occurs in `A` (membership sees neither the order of `A` nor its
duplicates), and two positions that hold the same resource get the same answer. -/
theorem QueryPermissionsMultiResources_matches_allowed (c : HTTPClient) (t : Transport)
    (j : JSONCodec) (resources : List String) (action : Action)
    (permissionOptions : PermissionOptions) (data : List Nat) (A : List String)
    (hno : ¬ (permissionOptions.OverrideHeaderValue ≠ "" ∧
      permissionOptions.OverrideHeaderValue = c.overrideHeaderValue))
    (hans : RemoteAnswers t "POST" (c.address ++ c.permissionFilterPath)
      (j.marshalFilter ⟨resources, action, permissionOptions.MemberIds⟩) c.headers c.cookies
      200 data)
    (hdec : j.unmarshalFilter (some data) = .ok A) :
    (c.QueryPermissionsMultiResources t j resources action permissionOptions).err = none ∧
    (c.QueryPermissionsMultiResources t j resources action permissionOptions).allowed.length =
      resources.length ∧
    (∀ (i : Nat) (r : String), resources[i]? = some r →
      ∃ b, (c.QueryPermissionsMultiResources t j resources action
          permissionOptions).allowed[i]? = some b ∧
        (b = true ↔ r ∈ A)) ∧
    ∀ (i k : Nat) (r : String), resources[i]? = some r → resources[k]? = some r →
      (c.QueryPermissionsMultiResources t j resources action
          permissionOptions).allowed[i]? =
        (c.QueryPermissionsMultiResources t j resources action
          permissionOptions).allowed[k]? := by
  have hov : c.overrideMatches permissionOptions = false := by
    rw [← Bool.not_eq_true, overrideMatches_iff]
    exact hno
  cases resources with
  | nil => simp [HTTPClient.QueryPermissionsMultiResources, hov]
  | cons x xs =>
    have hres : c.QueryPermissionsMultiResources t j (x :: xs) action permissionOptions =
        ⟨(x :: xs).map (fun resource => A.contains resource), none,
          c.logVerbose "Sending request to OPA" ++
            [.send (buildRequest "POST" (c.address ++ c.permissionFilterPath)
              (j.marshalFilter ⟨x :: xs, action, permissionOptions.MemberIds⟩) c.headers
              c.cookies), .readAll, .closeBody] ++
            c.logVerbose "Received response from OPA"⟩ := by
      simp only [HTTPClient.QueryPermissionsMultiResources, hov, List.isEmpty_cons,
        sendHTTPRequest_of_remoteAnswers _ _ _ _ _ _ _ _ hans, hdec]
      simp
    rw [hres]
    refine ⟨rfl, by simp, ?_, ?_⟩
    · intro i r hr
      refine ⟨A.contains r, ?_, by simp⟩
      simp only [List.getElem?_map, hr, Option.map_some']
    · intro i k r hi hk
      simp only [List.getElem?_map, hi, hk]

/-- C2: when the supplied `OverrideHeaderValue` is non-empty and equals the client's
configured override value, `QueryPermissions` returns `(true, nil)` for every resource and
action and sends no request, whatever the remote service would have answered. -/
theorem QueryPermissions_override (c : HTTPClient) (t : Transport) (j : JSONCodec)
    (resource : String) (action : Action) (permissionOptions : PermissionOptions)
    (hne : permissionOptions.OverrideHeaderValue ≠ "")
    (heq : permissionOptions.OverrideHeaderValue = c.overrideHeaderValue) :
    (c.QueryPermissions t j resource action permissionOptions).allowed = true ∧
    (c.QueryPermissions t j resource action permissionOptions).err = none ∧
    networkCalls (c.QueryPermissions t j resource action permissionOptions).trace = 0 := by
  have hov : c.overrideMatches permissionOptions = true :=
    (overrideMatches_iff c permissionOptions).2 ⟨hne, heq⟩
  simp [HTTPClient.QueryPermissions, hov, networkCalls]

/-- C3: when the supplied `OverrideHeaderValue` is non-empty and equals the client's
configured override value, `QueryPermissionsMultiResources` returns a nil error and a slice
of the input's length whose every entry is true, and sends no request; this holds for every
list of resources, the non-empty ones among them. -/
theorem QueryPermissionsMultiResources_override (c : HTTPClient) (t : Transport)
    (j : JSONCodec) (resources : List String) (action : Action)
    (permissionOptions : PermissionOptions)
    (hne : permissionOptions.OverrideHeaderValue ≠ "")
    (heq : permissionOptions.OverrideHeaderValue = c.overrideHeaderValue) :
    (c.QueryPermissionsMultiResources t j resources action permissionOptions).err = none ∧
    (c.QueryPermissionsMultiResources t j resources action permissionOptions).allowed.length =
      resources.length ∧
    (∀ b ∈ (c.QueryPermissionsMultiResources t j resources action permissionOptions).allowed,
      b = true) ∧
    networkCalls
      (c.QueryPermissionsMultiResources t j resources action permissionOptions).trace = 0 := by
  have hov : c.overrideMatches permissionOptions = true :=
    (overrideMatches_iff c permissionOptions).2 ⟨hne, heq⟩
  simp [HTTPClient.QueryPermissionsMultiResources, hov, networkCalls]

/-- C4: when the override does not match and the allow endpoint answers 200 with a body
that decodes to the result `b`, `QueryPermissions` returns `(b, nil)`. -/
theorem QueryPermissions_returns_result (c : HTTPClient) (t : Transport) (j : JSONCodec)
    (resource : String) (action : Action) (permissionOptions : PermissionOptions)
    (data : List Nat) (b : Bool)
    (hno : ¬ (permissionOptions.OverrideHeaderValue ≠ "" ∧
      permissionOptions.OverrideHeaderValue = c.overrideHeaderValue))
    (hans : RemoteAnswers t "POST" (c.address ++ c.permissionQueryPath)
      (j.marshalQuery ⟨resource, action, permissionOptions.MemberIds⟩) c.headers c.cookies
      200 data)
    (hdec : j.unmarshalQuery (some data) = .ok b) :
    (c.QueryPermissions t j resource action permissionOptions).allowed = b ∧
    (c.QueryPermissions t j resource action permissionOptions).err = none := by
  have hov : c.overrideMatches permissionOptions = false := by
    rw [← Bool.not_eq_true, overrideMatches_iff]
    exact hno
  simp only [HTTPClient.QueryPermissions, hov,
    sendHTTPRequest_of_remoteAnswers _ _ _ _ _ _ _ _ hans, hdec]
  simp

/-! ## The theorems at concrete inputs -/

/-- The filter query of `TestQueryPermissionsMultiResources`: the test server answers 200
with the two allowed resources, and the client's answer follows the input positions. -/
theorem QueryPermissionsMultiResources_matches_allowed_witness :
    RemoteAnswers testTransport "POST"
      (testClient.address ++ testClient.permissionFilterPath)
      (testCodec.marshalFilter ⟨testResources, "read", ["user1"]⟩) testClient.headers
      testClient.cookies 200 (encodeStrings ["allow-resource-1", "allow-resource-2"]) ∧
    testCodec.unmarshalFilter (some (encodeStrings ["allow-resource-1", "allow-resource-2"])) =
      .ok ["allow-resource-1", "allow-resource-2"] ∧
    (testClient.QueryPermissionsMultiResources testTransport testCodec testResources "read"
      ⟨["user1"], ""⟩).err = none ∧
    (testClient.QueryPermissionsMultiResources testTransport testCodec testResources "read"
      ⟨["user1"], ""⟩).allowed.length = testResources.length ∧
    (∀ (i : Nat) (r : String), testResources[i]? = some r →
      ∃ b, (testClient.QueryPermissionsMultiResources testTransport testCodec testResources
          "read" ⟨["user1"], ""⟩).allowed[i]? = some b ∧
        (b = true ↔ r ∈ ["allow-resource-1", "allow-resource-2"])) ∧
    ∀ (i k : Nat) (r : String), testResources[i]? = some r → testResources[k]? = some r →
      (testClient.QueryPermissionsMultiResources testTransport testCodec testResources
          "read" ⟨["user1"], ""⟩).allowed[i]? =
        (testClient.QueryPermissionsMultiResources testTransport testCodec testResources
          "read" ⟨["user1"], ""⟩).allowed[k]? :=
  ⟨⟨rfl, by decide⟩, rfl,
    QueryPermissionsMultiResources_matches_allowed testClient testTransport testCodec
      testResources "read" ⟨["user1"], ""⟩
      (encodeStrings ["allow-resource-1", "allow-resource-2"])
      ["allow-resource-1", "allow-resource-2"] (by decide) ⟨rfl, by decide⟩ rfl⟩

/-- The query of `TestQueryPermissions_WithOverride`: a resource the test server denies,
asked with the configured override value. -/
theorem QueryPermissions_override_witness :
    (testClient.QueryPermissions testTransport testCodec "deny-resource" "read"
      ⟨["user1"], "test-override-value"⟩).allowed = true ∧
    (testClient.QueryPermissions testTransport testCodec "deny-resource" "read"
      ⟨["user1"], "test-override-value"⟩).err = none ∧
    networkCalls (testClient.QueryPermissions testTransport testCodec "deny-resource" "read"
      ⟨["user1"], "test-override-value"⟩).trace = 0 :=
  QueryPermissions_override testClient testTransport testCodec "deny-resource" "read"
    ⟨["user1"], "test-override-value"⟩ (by decide) (by decide)

/-- The query of `TestQueryPermissionsMultiResources_WithOverride`. -/
theorem QueryPermissionsMultiResources_override_witness :
    (testClient.QueryPermissionsMultiResources testTransport testCodec testResources "read"
      ⟨["user1"], "test-override-value"⟩).err = none ∧
    (testClient.QueryPermissionsMultiResources testTransport testCodec testResources "read"
      ⟨["user1"], "test-override-value"⟩).allowed.length = testResources.length ∧
    (∀ b ∈ (testClient.QueryPermissionsMultiResources testTransport testCodec testResources
      "read" ⟨["user1"], "test-override-value"⟩).allowed, b = true) ∧
    networkCalls (testClient.QueryPermissionsMultiResources testTransport testCodec
      testResources "read" ⟨["user1"], "test-override-value"⟩).trace = 0 :=
  QueryPermissionsMultiResources_override testClient testTransport testCodec testResources
    "read" ⟨["user1"], "test-override-value"⟩ (by decide) (by decide)

/-- The queries of `TestQueryPermissions_Allow` and `TestQueryPermissions_Deny`. -/
theorem QueryPermissions_returns_result_witness :
    ((testClient.QueryPermissions testTransport testCodec "allow-resource" "read"
      ⟨["user1"], ""⟩).allowed = true ∧
    (testClient.QueryPermissions testTransport testCodec "allow-resource" "read"
      ⟨["user1"], ""⟩).err = none) ∧
    ((testClient.QueryPermissions testTransport testCodec "deny-resource" "read"
      ⟨["user1"], ""⟩).allowed = false ∧
    (testClient.QueryPermissions testTransport testCodec "deny-resource" "read"
      ⟨["user1"], ""⟩).err = none) :=
  ⟨QueryPermissions_returns_result testClient testTransport testCodec "allow-resource" "read"
      ⟨["user1"], ""⟩ (encodeStrings ["true"]) true (by decide) ⟨rfl, by decide⟩ rfl,
    QueryPermissions_returns_result testClient testTransport testCodec "deny-resource" "read"
      ⟨["user1"], ""⟩ (encodeStrings ["false"]) false (by decide) ⟨rfl, by decide⟩
      rfl⟩

/-- A 404 answer checked against 200 gives an error together with the body and the
response; the same answer with no expected status code gives no error. -/
theorem sendHTTPRequest_status_check_witness :
    ((sendHTTPRequest (fixedTransport 404 [110, 111]) "POST" "http://opa/v1" [1] [] []
      200).err ≠ none ↔ ((200 : Int) ≠ 0 ∧ (404 : Int) ≠ 200)) ∧
    (sendHTTPRequest (fixedTransport 404 [110, 111]) "POST" "http://opa/v1" [1] [] []
      200).body = some [110, 111] ∧
    (sendHTTPRequest (fixedTransport 404 [110, 111]) "POST" "http://opa/v1" [1] [] []
      200).resp = some ⟨404, some ⟨[110, 111], none⟩⟩ ∧
    ((200 : Int) = 0 →
      (sendHTTPRequest (fixedTransport 404 [110, 111]) "POST" "http://opa/v1" [1] [] []
        200).err = none) :=
  sendHTTPRequest_status_check (fixedTransport 404 [110, 111]) "POST" "http://opa/v1" [1] []
    [] 200 ⟨404, some ⟨[110, 111], none⟩⟩ rfl rfl (fun rc h => by cases h; rfl)

/-- The three failures at concrete transports: a URL that cannot be parsed, a server that
cannot be reached, a body that breaks off. -/
theorem sendHTTPRequest_failure_returns_nothing_witness :
    ((sendHTTPRequest invalidURLTransport "POST" "http://[" [1] [] [] 200).body = none ∧
    (sendHTTPRequest invalidURLTransport "POST" "http://[" [1] [] [] 200).resp = none ∧
    (sendHTTPRequest invalidURLTransport "POST" "http://[" [1] [] [] 200).err ≠ none ∧
    (invalidURLTransport.newRequestWithContext "POST" "http://[" ≠ none →
      networkCalls (sendHTTPRequest invalidURLTransport "POST" "http://[" [1] [] []
        200).trace = 0)) ∧
    ((sendHTTPRequest unreachableTransport "POST" "http://opa/v1" [1] [] [] 200).body = none ∧
    (sendHTTPRequest unreachableTransport "POST" "http://opa/v1" [1] [] [] 200).resp = none ∧
    (sendHTTPRequest unreachableTransport "POST" "http://opa/v1" [1] [] [] 200).err ≠ none ∧
    (unreachableTransport.newRequestWithContext "POST" "http://opa/v1" ≠ none →
      networkCalls (sendHTTPRequest unreachableTransport "POST" "http://opa/v1" [1] [] []
        200).trace = 0)) ∧
    ((sendHTTPRequest brokenBodyTransport "POST" "http://opa/v1" [1] [] [] 200).body = none ∧
    (sendHTTPRequest brokenBodyTransport "POST" "http://opa/v1" [1] [] [] 200).resp = none ∧
    (sendHTTPRequest brokenBodyTransport "POST" "http://opa/v1" [1] [] [] 200).err ≠ none ∧
    (brokenBodyTransport.newRequestWithContext "POST" "http://opa/v1" ≠ none →
      networkCalls (sendHTTPRequest brokenBodyTransport "POST" "http://opa/v1" [1] [] []
        200).trace = 0)) :=
  ⟨sendHTTPRequest_failure_returns_nothing invalidURLTransport "POST" "http://[" [1] [] [] 200
      (Or.inl (by decide)),
    sendHTTPRequest_failure_returns_nothing unreachableTransport "POST" "http://opa/v1" [1] []
      [] 200 (Or.inr (Or.inl (by decide))),
    sendHTTPRequest_failure_returns_nothing brokenBodyTransport "POST" "http://opa/v1" [1] []
      [] 200
      (Or.inr (Or.inr ⟨⟨200, some ⟨[104, 105], some (.mk "unexpected EOF")⟩⟩,
        ⟨[104, 105], some (.mk "unexpected EOF")⟩, rfl, rfl, by decide⟩))⟩

/-- The body is closed once on a successful return, on a status mismatch and on a body-read
error. -/
theorem sendHTTPRequest_closes_body_once_witness :
    closeCalls (sendHTTPRequest (fixedTransport 200 [110, 111]) "POST" "http://opa/v1" [1] []
      [] 200).trace = 1 ∧
    closeCalls (sendHTTPRequest (fixedTransport 500 [110, 111]) "POST" "http://opa/v1" [1] []
      [] 200).trace = 1 ∧
    closeCalls (sendHTTPRequest brokenBodyTransport "POST" "http://opa/v1" [1] [] []
      200).trace = 1 :=
  ⟨((sendHTTPRequest_closes_body_once (fixedTransport 200 [110, 111]) "POST" "http://opa/v1"
      [1] [] [] 200).2 _ _ rfl rfl rfl).1,
    ((sendHTTPRequest_closes_body_once (fixedTransport 500 [110, 111]) "POST" "http://opa/v1"
      [1] [] [] 200).2 _ _ rfl rfl rfl).1,
    ((sendHTTPRequest_closes_body_once brokenBodyTransport "POST" "http://opa/v1"
      [1] [] [] 200).2 _ _ rfl rfl rfl).1⟩

/-- C6 as stated fails: with a poll interval of 0 the run panics in `time.NewTicker`, before
the probe is invoked; a probe that would return true at once is never invoked and the run
does not return nil. -/
theorem retryUntilSuccessful_zero_interval_never_probes :
    (retryUntilSuccessful 1000 0 (succeedsFrom 0) 0 [.tick, .timeout]).outcome ≠
      .returned none ∧
    (retryUntilSuccessful 1000 0 (succeedsFrom 0) 0 [.tick, .timeout]).outcome =
      .panicked "non-positive interval for NewTicker" ∧
    invocations (retryUntilSuccessful 1000 0 (succeedsFrom 0) 0 [.tick, .timeout]).trace =
      [] ∧
    (succeedsFrom 0 0).1 = true := by
  decide

/-- A probe that succeeds at once is invoked once, whatever events are pending. -/
theorem retryUntilSuccessful_tries_immediately_witness :
    (0 : Int) < 1 ∧
    (retryUntilSuccessful 1000 1 (succeedsFrom 0) 0 [.timeout, .tick]).trace.head? =
      some (.invoke (succeedsFrom 0 0).1) ∧
    ((succeedsFrom 0 0).1 = true →
      (retryUntilSuccessful 1000 1 (succeedsFrom 0) 0 [.timeout, .tick]).outcome =
        .returned none ∧
      (retryUntilSuccessful 1000 1 (succeedsFrom 0) 0 [.timeout, .tick]).trace =
        [.invoke true] ∧
      (invocations (retryUntilSuccessful 1000 1 (succeedsFrom 0) 0
        [.timeout, .tick]).trace).length = 1 ∧
      (retryUntilSuccessful 1000 1 (succeedsFrom 0) 0 [.timeout, .tick]).state =
        (succeedsFrom 0 0).2) :=
  ⟨by decide,
    retryUntilSuccessful_tries_immediately 1000 1 (succeedsFrom 0) 0 [.timeout, .tick]
      (by decide)⟩

/-- A probe that never succeeds, two ticks and then the deadline: the timeout error after
three invocations. -/
theorem retryUntilSuccessful_timeout_witness :
    (retryUntilSuccessful 1000 100 neverSucceeds 0 [.tick, .tick, .timeout, .tick]).outcome =
      .returned (some (.mk "Retry timeout exceeded")) ∧
    (invocations (retryUntilSuccessful 1000 100 neverSucceeds 0
      [.tick, .tick, .timeout, .tick]).trace).length = 3 :=
  (retryUntilSuccessful_timeout 1000 100 neverSucceeds 0 (by decide) (fun _ => rfl)).1 2
    [.tick]

/-- A probe that succeeds on its third invocation, with three ticks before the deadline:
the run returns nil after two ticks and the three invocations false, false, true, which are
the probe's results in the states 0, 1 and 2, and leaves the probe in state 3. -/
theorem retryUntilSuccessful_run_invariant_witness :
    (retryUntilSuccessful 1000 100 (succeedsFrom 2) 0 [.tick, .tick, .tick, .timeout]).outcome =
      .returned none ∧
    invocations (retryUntilSuccessful 1000 100 (succeedsFrom 2) 0
      [.tick, .tick, .tick, .timeout]).trace = [false, false, true] ∧
    ((none : Option GoError) = none ↔
      (invocations (retryUntilSuccessful 1000 100 (succeedsFrom 2) 0
        [.tick, .tick, .tick, .timeout]).trace).getLast? = some true) ∧
    (invocations (retryUntilSuccessful 1000 100 (succeedsFrom 2) 0
      [.tick, .tick, .tick, .timeout]).trace).length =
      1 + ticksConsumed (retryUntilSuccessful 1000 100 (succeedsFrom 2) 0
        [.tick, .tick, .tick, .timeout]).trace ∧
    (∀ (i : Nat) (b : Bool),
      (invocations (retryUntilSuccessful 1000 100 (succeedsFrom 2) 0
        [.tick, .tick, .tick, .timeout]).trace)[i]? = some b →
      b = (succeedsFrom 2 (stateAfter (succeedsFrom 2) 0 i)).1) ∧
    (retryUntilSuccessful 1000 100 (succeedsFrom 2) 0 [.tick, .tick, .tick, .timeout]).state =
      stateAfter (succeedsFrom 2) 0
        (invocations (retryUntilSuccessful 1000 100 (succeedsFrom 2) 0
          [.tick, .tick, .tick, .timeout]).trace).length ∧
    (retryUntilSuccessful 1000 100 (succeedsFrom 2) 0 [.tick, .tick, .tick, .timeout]).state =
      3 :=
  have h := retryUntilSuccessful_run_invariant 1000 100 (succeedsFrom 2) 0
    [.tick, .tick, .tick, .timeout] none (by decide)
  ⟨by decide, by decide, h.1, h.2.2.2.1, h.2.2.2.2.1, h.2.2.2.2.2.1, by decide⟩

end Opa
